import Mathlib

/-!
Verification of the real-time simulation core of the `vibe-coding` arcade
shooter, shallowly embedded from the two game variants:

* `dark-horizon` (`js/game.js`, `entities.js`, `js/constants.js`): the main
  variant with pause support, try/catch around persistence, and a
  `Player.update` that runs after `checkCollisions` inside `update()`.
* `space-voyager` (`script.js`): the simpler variant where `updatePlayer`
  runs first and `shoot`/`startGame`/`updateHighScore` lack some guards.

Modelling conventions:
* JavaScript numbers are embedded as rationals (`ℚ`); the claims under
  check do not depend on binary floating-point rounding.
* `Math.random()` draws and the `Math.cos`/`Math.sin` factors of particle
  bursts are injected as explicit parameter streams (the spec itself asks
  for an injectable random source); no claim constrains their values.
* DOM, canvas drawing, and the decorative background (starfield, nebula)
  are omitted: they read but never write the simulation state.
* `localStorage` is modelled as an injected `setItem : ℕ → Except Unit Unit`;
  a `.error` result stands for a thrown storage exception.
-/

namespace VibeCoding

/-- Axis-aligned rectangle with a scalar speed: the common shape of
`Player`, `Asteroid`, `Star` and `Bullet` in both variants
(`{x, y, width, height, speed}` object literals / `Entity` classes). -/
structure Entity where
  x : ℚ
  y : ℚ
  width : ℚ
  height : ℚ
  speed : ℚ
deriving DecidableEq

/-- Mouse / touch position in viewport coordinates (`this.mousePos`). -/
structure Vec2 where
  x : ℚ
  y : ℚ
deriving DecidableEq

/-- Logical viewport dimensions (`this.view` in dark-horizon,
`this.canvas` width/height in space-voyager). -/
structure Viewport where
  width : ℚ
  height : ℚ
deriving DecidableEq

/-- The `clamp` helper of `dark-horizon/entities.js`:
`(n, min, max) => Math.max(min, Math.min(max, n))`. -/
def clamp (n lo hi : ℚ) : ℚ := max lo (min hi n)

/-- Axis-aligned bounding-box test, `checkCollision(rect1, rect2)`:
identical in `dark-horizon/js/game.js` (lines 544-551) and
`space-voyager/script.js` (lines 426-433). -/
def checkCollision (rect1 rect2 : Entity) : Bool :=
  decide (rect1.x < rect2.x + rect2.width) &&
  decide (rect1.x + rect1.width > rect2.x) &&
  decide (rect1.y < rect2.y + rect2.height) &&
  decide (rect1.y + rect1.height > rect2.y)

/-- Currently-held movement keys, one flag per key code consulted by
`Player.update` (`this.keys[e.code]`; unread codes are irrelevant). -/
structure Keys where
  arrowLeft : Bool
  keyA : Bool
  arrowRight : Bool
  keyD : Bool
  arrowUp : Bool
  keyW : Bool
  arrowDown : Bool
  keyS : Bool
deriving DecidableEq

/-- The `keyboardPressed` disjunction at the top of `Player.update`
(`entities.js` lines 450-453) / `updatePlayer` (space-voyager 266-269). -/
def Keys.anyMovement (k : Keys) : Bool :=
  k.arrowLeft || k.keyA || k.arrowRight || k.keyD ||
  k.arrowUp || k.keyW || k.arrowDown || k.keyS

/-- Per-tick player movement, `Player.update(input, mousePos, view)` of
`dark-horizon/entities.js` lines 449-467; `SpaceGame.updatePlayer`
(space-voyager lines 265-285) is the same logic with `canvas` for `view`.
Keyboard steps take precedence; otherwise, with both pointer coordinates
strictly positive, exponential smoothing toward the pointer (`* 0.1`);
finally both axes are clamped to `[0, view − size]`. -/
def Player.update (input : Keys) (mousePos : Vec2) (view : Viewport)
    (p : Entity) : Entity :=
  let p1 :=
    if input.anyMovement then
      let x1 := if input.arrowLeft || input.keyA then p.x - p.speed else p.x
      let x2 := if input.arrowRight || input.keyD then x1 + p.speed else x1
      let y1 := if input.arrowUp || input.keyW then p.y - p.speed else p.y
      let y2 := if input.arrowDown || input.keyS then y1 + p.speed else y1
      { p with x := x2, y := y2 }
    else if decide (mousePos.x > 0) && decide (mousePos.y > 0) then
      let targetX := mousePos.x - p.width / 2
      let targetY := mousePos.y - p.height / 2
      { p with x := p.x + (targetX - p.x) * (1 / 10),
               y := p.y + (targetY - p.y) * (1 / 10) }
    else p
  { p1 with x := clamp p1.x 0 (view.width - p.width),
            y := clamp p1.y 0 (view.height - p.height) }

/-- Asteroid movement rule `Asteroid.update()`: `this.y += this.speed`. -/
def moveAsteroid (a : Entity) : Entity := { a with y := a.y + a.speed }

/-- Star movement rule `Star.update()`: `this.y += this.speed`. -/
def moveStar (s : Entity) : Entity := { s with y := s.y + s.speed }

/-- Bullet movement rule `Bullet.update()`: `this.y -= this.speed`. -/
def moveBullet (b : Entity) : Entity := { b with y := b.y - b.speed }

/-- The backward purge loop shared by every `updateXxx` method:
`for (let i = arr.length - 1; i >= 0; i--) { move(arr[i]); if (cond) arr.splice(i, 1); }`.
`purgeLoop move cond i l` runs the loop body for indices `i-1` down to `0`
on `l`; the full loop is `purgeLoop move cond l.length l`. -/
def purgeLoop {α : Type} (move : α → α) (cond : α → Bool) :
    Nat → List α → List α
  | 0, l => l
  | i + 1, l =>
    match l[i]? with
    | none => purgeLoop move cond i l
    | some e =>
      let e1 := move e
      let l1 := l.set i e1
      purgeLoop move cond i (if cond e1 then l1.eraseIdx i else l1)

/-- `updateAsteroids` despawn pass (`dark-horizon/js/game.js` 410-418,
`space-voyager/script.js` 315-324): move each asteroid, then splice it out
when `asteroid.y > viewHeight`. -/
def updateAsteroids (viewHeight : ℚ) (asteroids : List Entity) : List Entity :=
  purgeLoop moveAsteroid (fun a => decide (a.y > viewHeight))
    asteroids.length asteroids

/-- `updateStars` despawn pass: move, then splice when `star.y > viewHeight`. -/
def updateStars (viewHeight : ℚ) (stars : List Entity) : List Entity :=
  purgeLoop moveStar (fun s => decide (s.y > viewHeight)) stars.length stars

/-- `updateBullets` despawn pass: move, then splice when
`bullet.y + bullet.height < 0`. -/
def updateBullets (bullets : List Entity) : List Entity :=
  purgeLoop moveBullet (fun b => decide (b.y + b.height < 0))
    bullets.length bullets

/-- Engine-trail particle (`EngineTrail.add` pushes
`{x, y, life, size}` literals). -/
structure TrailParticle where
  x : ℚ
  y : ℚ
  life : ℤ
  size : ℚ
deriving DecidableEq

/-- Explosion effect record (`Explosion` class / explosion object literal):
`{x, y, width, height, life, maxLife}`. -/
structure Explosion where
  x : ℚ
  y : ℚ
  width : ℚ
  height : ℚ
  life : ℤ
  maxLife : ℤ
deriving DecidableEq

/-- Particle colors, modelled symbolically: `#ffd700` for star bursts and
`hsl(0, 0%, L%)` with random lightness `L` for explosion debris. -/
inductive PColor where
  | starGold : PColor
  | grayHsl (lightness : ℚ) : PColor
deriving DecidableEq

/-- Free particle (`Particle` class / particle object literal):
`{x, y, vx, vy, life, maxLife, size, color}`. -/
structure Particle where
  x : ℚ
  y : ℚ
  vx : ℚ
  vy : ℚ
  life : ℤ
  maxLife : ℤ
  size : ℚ
  color : PColor
deriving DecidableEq

/-- Trail-particle aging inside `EngineTrail.update` / `updateEngineTrail`:
`particle.y += 2; particle.life--`. -/
def moveTrailParticle (p : TrailParticle) : TrailParticle :=
  { p with y := p.y + 2, life := p.life - 1 }

/-- Explosion aging (`Explosion.update()` / `updateExplosions`):
`life` decreases by one. -/
def moveExplosion (e : Explosion) : Explosion := { e with life := e.life - 1 }

/-- Particle physics (`Particle.update()` / `updateParticles`):
`x += vx; y += vy; life--; vy += 0.1`. -/
def moveParticle (p : Particle) : Particle :=
  { p with x := p.x + p.vx, y := p.y + p.vy,
           life := p.life - 1, vy := p.vy + 1 / 10 }

/-- Engine-trail purge (`EngineTrail.update` / tail of `updateEngineTrail`):
backward scan, splice when `life <= 0` after aging. -/
def updateTrail (trail : List TrailParticle) : List TrailParticle :=
  purgeLoop moveTrailParticle (fun p => decide (p.life ≤ 0))
    trail.length trail

/-- `updateExplosions`: backward scan, splice when `life <= 0`. -/
def updateExplosions (explosions : List Explosion) : List Explosion :=
  purgeLoop moveExplosion (fun e => decide (e.life ≤ 0))
    explosions.length explosions

/-- `updateParticles`: backward scan, splice when `life <= 0`. -/
def updateParticles (particles : List Particle) : List Particle :=
  purgeLoop moveParticle (fun p => decide (p.life ≤ 0))
    particles.length particles

/-- The explosion record pushed by `createExplosion(x, y)`:
`{x: x − 25, y: y − 25, width: 50, height: 50, life: 15, maxLife: 15}`
(`CONFIG.EXPLOSION` OFFSET 25, SIZE 50, LIFE 15; space-voyager inlines the
same numbers). -/
def mkExplosion (x y : ℚ) : Explosion :=
  { x := x - 25, y := y - 25, width := 50, height := 50,
    life := 15, maxLife := 15 }

/-- The 15 debris particles pushed by `createExplosion(x, y)`; the
`Math.random()` draws are taken from the injected stream `r`. -/
def createExplosionParticles (r : ℕ → ℚ) (x y : ℚ) : List Particle :=
  (List.range 15).map fun i =>
    { x := x, y := y,
      vx := (r (4 * i) - 1 / 2) * 8,
      vy := (r (4 * i + 1) - 1 / 2) * 8,
      life := 30, maxLife := 30,
      size := r (4 * i + 2) * 4 + 2,
      color := PColor.grayHsl (r (4 * i + 3) * 40 + 40) }

/-- The 12-particle radial burst pushed on star pickup; `cosv p` / `sinv p`
stand for `Math.cos((2π·p)/12)` / `Math.sin((2π·p)/12)` (injected, since ℚ
cannot carry the trigonometric values and no claim constrains them), and
`r` is the injected `Math.random()` stream. -/
def starBurstParticles (r : ℕ → ℚ) (cosv sinv : ℕ → ℚ) (cx cy : ℚ) :
    List Particle :=
  (List.range 12).map fun p =>
    { x := cx, y := cy,
      vx := cosv p * (r (3 * p) * 3 + 2),
      vy := sinv p * (r (3 * p + 1) * 3 + 2),
      life := 20, maxLife := 20,
      size := r (3 * p + 2) * 2 + 1,
      color := PColor.starGold }

/-- Asteroid point value, `CONFIG.GAME.ASTEROID_SCORE = 10` in dark-horizon
(`js/constants.js`), literal `10` in space-voyager. -/
def ASTEROID_SCORE : ℕ := 10

/-- Star point value, `CONFIG.GAME.STAR_SCORE = 20` in dark-horizon,
literal `20` in space-voyager. -/
def STAR_SCORE : ℕ := 20

/-- Inner scan of the bullet-asteroid phase: `for (let j = asteroids.length
- 1; j >= 0; j--) { if (checkCollision(bullet, asteroid)) { splice; break } }`.
Scanning a list from its tail end, `innerScan` returns the hit asteroid of
highest index together with the asteroid list with that one spliced out,
or `none` when the bullet intersects no asteroid. -/
def innerScan (bullet : Entity) : List Entity → Option (Entity × List Entity)
  | [] => none
  | asteroid :: rest =>
    match innerScan bullet rest with
    | some (hit, rest1) => some (hit, asteroid :: rest1)
    | none =>
      if checkCollision bullet asteroid then some (asteroid, rest) else none

/-- Accumulated state of the bullet-vs-asteroid phase of `checkCollisions`. -/
structure BulletPhase where
  bullets : List Entity
  asteroids : List Entity
  score : ℕ
  explosions : List Explosion
  particles : List Particle
deriving DecidableEq

/-- Bullet-vs-asteroid resolution (`checkCollisions` first loop,
dark-horizon 494-507 / space-voyager 374-389): the outer loop walks bullets
from the last index down to 0, so the list tail is processed first; each
bullet scans asteroids backward, and on the first hit both are spliced out,
the score grows by the asteroid value, and `createExplosion` pushes one
explosion record plus 15 debris particles (draws from `rands`, one stream
per bullet position). -/
def bulletAsteroidLoop (astScore : ℕ) (rands : ℕ → ℕ → ℚ) :
    List Entity → List Entity → ℕ → List Explosion → List Particle →
    BulletPhase
  | [], asteroids, score, explosions, particles =>
    ⟨[], asteroids, score, explosions, particles⟩
  | bullet :: rest, asteroids, score, explosions, particles =>
    let r := bulletAsteroidLoop astScore (fun n => rands (n + 1))
      rest asteroids score explosions particles
    match innerScan bullet r.asteroids with
    | some (asteroid, asteroids1) =>
      { bullets := r.bullets,
        asteroids := asteroids1,
        score := r.score + astScore,
        explosions := r.explosions ++
          [mkExplosion (asteroid.x + asteroid.width / 2)
            (asteroid.y + asteroid.height / 2)],
        particles := r.particles ++
          createExplosionParticles (rands 0)
            (asteroid.x + asteroid.width / 2)
            (asteroid.y + asteroid.height / 2) }
    | none => { r with bullets := bullet :: r.bullets }

/-- Player-vs-star resolution (`checkCollisions` third loop, dark-horizon
517-534 / space-voyager 402-421): backward scan with no break; every star
intersecting the player is spliced out, adds the star value to the score,
and emits a 12-particle radial burst centered on the star. -/
def starLoop (stScore : ℕ) (rands : ℕ → ℕ → ℚ) (cosv sinv : ℕ → ℚ)
    (player : Entity) :
    List Entity → ℕ → List Particle → List Entity × ℕ × List Particle
  | [], score, particles => ([], score, particles)
  | star :: rest, score, particles =>
    let r := starLoop stScore (fun n => rands (n + 1)) cosv sinv player
      rest score particles
    if checkCollision player star then
      (r.1, r.2.1 + stScore,
        r.2.2 ++ starBurstParticles (rands 0) cosv sinv
          (star.x + star.width / 2) (star.y + star.height / 2))
    else (star :: r.1, r.2.1, r.2.2)

/-- The mutable session state owned by the game class: score/high-score,
run flags, input snapshot, the player, every entity and effect collection,
and the shot-cooldown bookkeeping. `paused` exists only in dark-horizon;
space-voyager never reads it. The speed/cooldown configuration fields are
set at construction (`this.asteroidSpeed`, `this.shotCooldown`, ...). -/
structure GameState where
  score : ℕ
  highScore : ℕ
  gameRunning : Bool
  paused : Bool
  keys : Keys
  mousePos : Vec2
  view : Viewport
  player : Entity
  bullets : List Entity
  asteroids : List Entity
  stars : List Entity
  explosions : List Explosion
  particles : List Particle
  engineTrail : List TrailParticle
  lastShot : ℚ
  time : ℕ
  asteroidSpeed : ℚ
  bulletSpeed : ℚ
  starSpeed : ℚ
  shotCooldown : ℚ
deriving DecidableEq

/-- Per-tick environment: every `Math.random()` draw and trigonometric
factor the tick may consume, injected so the simulation is a function.
`asteroidRoll`/`starRoll` are the spawn-probability draws; the `ast*` /
`star*` fields feed the entity factories; `explRands`/`burstRands` feed
`createExplosion` and the star bursts (one stream per bullet/star
position); `cosv`/`sinv` are the burst direction factors. -/
structure Env where
  asteroidRoll : ℚ
  starRoll : ℚ
  astW : ℚ
  astH : ℚ
  astSpd : ℚ
  astX : ℚ
  starW : ℚ
  starH : ℚ
  starSpd : ℚ
  starX : ℚ
  trailJitter : ℚ
  trailSize : ℚ
  explRands : ℕ → ℕ → ℚ
  burstRands : ℕ → ℕ → ℚ
  cosv : ℕ → ℚ
  sinv : ℕ → ℚ

/-- In-memory effect of `updateHighScore()`: promote `score` into
`highScore` when strictly greater (the DOM write and the persistence
attempt are modelled separately). -/
def updateHighScoreMem (s : GameState) : GameState :=
  if s.highScore < s.score then { s with highScore := s.score } else s

/-- In-memory effect of dark-horizon `gameOver()` (`js/game.js` 335-340):
`gameRunning = false; paused = false; updateHighScore()`. The
space-voyager `gameOver` (459-463) is the same minus the `paused` write,
which it never reads; both agree on every field a claim inspects. -/
def gameOverMem (s : GameState) : GameState :=
  updateHighScoreMem { s with gameRunning := false, paused := false }

/-- `checkCollisions()` (dark-horizon 493-536, space-voyager 373-424):
bullet×asteroid phase, then player×asteroid (on any hit, `gameOver()` and
`return`, so the star phase is skipped), then player×star. The scan of
asteroids against the player is order-irrelevant because `gameOver` does
not touch the asteroid list, so it is rendered with `List.any`. -/
def checkCollisions (explRands burstRands : ℕ → ℕ → ℚ) (cosv sinv : ℕ → ℚ)
    (s : GameState) : GameState :=
  let bp := bulletAsteroidLoop ASTEROID_SCORE explRands
    s.bullets s.asteroids s.score s.explosions s.particles
  let s1 := { s with bullets := bp.bullets, asteroids := bp.asteroids,
                     score := bp.score, explosions := bp.explosions,
                     particles := bp.particles }
  if s1.asteroids.any (fun asteroid => checkCollision s1.player asteroid) then
    gameOverMem s1
  else
    let r := starLoop STAR_SCORE burstRands cosv sinv s1.player
      s1.stars s1.score s1.particles
    { s1 with stars := r.1, score := r.2.1, particles := r.2.2 }

namespace DarkHorizon

/-- Dark-horizon `createBullet()` (`js/game.js` 571-574):
`bx = player.x + (player.width − BULLET.WIDTH)/2 + SPAWN_OFFSET` with
`BULLET = {WIDTH: 4, HEIGHT: 15, SPAWN_OFFSET: −2}`. -/
def createBullet (s : GameState) : Entity :=
  { x := s.player.x + (s.player.width - 4) / 2 + (-2), y := s.player.y,
    width := 4, height := 15, speed := s.bulletSpeed }

/-- Dark-horizon `shoot()` (`js/game.js` 246-252): guarded by
`gameRunning && !paused`, then by the wall-clock cooldown
(`now − lastShot < shotCooldown`); on success pushes one bullet and
records `lastShot = now`. -/
def shoot (now : ℚ) (s : GameState) : GameState :=
  if !s.gameRunning || s.paused then s
  else if now - s.lastShot < s.shotCooldown then s
  else { s with bullets := s.bullets ++ [createBullet s], lastShot := now }

/-- Dark-horizon `startGame()` + `resetGameState()` (`js/game.js` 290-310):
`gameRunning = true`, score 0, the five entity/effect arrays emptied,
`lastShot = 0`. The `EngineTrail` instance is not recreated, so its
particle list survives the restart; `paused` is not touched either. -/
def startGame (s : GameState) : GameState :=
  { s with gameRunning := true, score := 0, asteroids := [], bullets := [],
           explosions := [], particles := [], stars := [], lastShot := 0 }

/-- Dark-horizon `updateHighScore()` (`js/game.js` 377-387) against an
injected persistence call: the `localStorage.setItem` attempt sits inside
`try { ... } catch (_) { /* ignore */ }`, so both outcomes of `setItem`
continue with the already-updated in-memory high score. -/
def updateHighScore (setItem : ℕ → Except Unit Unit) (s : GameState) :
    GameState :=
  if s.highScore < s.score then
    let s1 := { s with highScore := s.score }
    match setItem s1.highScore with
    | Except.ok _ => s1
    | Except.error _ => s1
  else s

/-- Dark-horizon `gameOver()` (`js/game.js` 335-340) with the persistence
call injected; always completes (the catch swallows store errors). -/
def gameOver (setItem : ℕ → Except Unit Unit) (s : GameState) : GameState :=
  updateHighScore setItem { s with gameRunning := false, paused := false }

/-- Dark-horizon `createAsteroid()` (`js/game.js` 557-565) with the factory
draws taken from `env`: size `25 + U·25`, speed `asteroidSpeed + U·2`,
`x` uniform in `[margin/2, width − size − margin/2]` (margin 40), `y = −40`. -/
def createAsteroid (env : Env) (s : GameState) : Entity :=
  let width := 25 + env.astW * 25
  let height := 25 + env.astH * 25
  let speed := s.asteroidSpeed + env.astSpd * 2
  let minX : ℚ := 40 / 2
  let maxX := max minX (s.view.width - width - 40 / 2)
  { x := minX + env.astX * (maxX - minX), y := -40,
    width := width, height := height, speed := speed }

/-- Dark-horizon `createStar()` (`js/game.js` 608-616): size `15 + U·15`,
speed `starSpeed + U`, margin 20, `y = −20`. -/
def createStar (env : Env) (s : GameState) : Entity :=
  let width := 15 + env.starW * 15
  let height := 15 + env.starH * 15
  let speed := s.starSpeed + env.starSpd
  let minX : ℚ := 20 / 2
  let maxX := max minX (s.view.width - width - 20 / 2)
  { x := minX + env.starX * (maxX - minX), y := -20,
    width := width, height := height, speed := speed }

/-- `spawnObjects()` (`js/game.js` 485-488): one asteroid when the first
roll is below `ASTEROID_SPAWN_RATE = 0.02`, one star when the second roll
is below `STAR_SPAWN_RATE = 0.01`. -/
def spawnObjects (env : Env) (s : GameState) : GameState :=
  let s1 := if env.asteroidRoll < 2 / 100 then
    { s with asteroids := s.asteroids ++ [createAsteroid env s] } else s
  if env.starRoll < 1 / 100 then
    { s1 with stars := s1.stars ++ [createStar env s1] } else s1

/-- `updateEngineTrail()` (`js/game.js` 436-441): while running, push one
trail particle at the player's engine position with random jitter, then
age and purge the trail. -/
def updateEngineTrailS (env : Env) (s : GameState) : GameState :=
  let trail := if s.gameRunning then
    s.engineTrail ++
      [{ x := s.player.x + s.player.width / 2 + (env.trailJitter - 1 / 2) * 4,
         y := s.player.y + s.player.height,
         life := 20, size := env.trailSize * 3 + 1 }]
    else s.engineTrail
  { s with engineTrail := updateTrail trail }

/-- Dark-horizon `update()` (`js/game.js` 392-405): asteroid, bullet,
engine-trail, explosion, particle and star updates, then `spawnObjects`,
then `checkCollisions`, and — after collision resolution — the player
movement `this.player.update(keys, mousePos, view)`. (The `Nebula.update`
call only animates the decorative background.) -/
def update (env : Env) (s : GameState) : GameState :=
  let s1 := { s with asteroids := updateAsteroids s.view.height s.asteroids }
  let s2 := { s1 with bullets := updateBullets s1.bullets }
  let s3 := updateEngineTrailS env s2
  let s4 := { s3 with explosions := updateExplosions s3.explosions }
  let s5 := { s4 with particles := updateParticles s4.particles }
  let s6 := { s5 with stars := updateStars s5.view.height s5.stars }
  let s7 := spawnObjects env s6
  let s8 := checkCollisions env.explRands env.burstRands env.cosv env.sinv s7
  { s8 with player := Player.update s8.keys s8.mousePos s8.view s8.player }

/-- Dark-horizon `gameLoop()` body (`js/game.js` 315-323) for one animation
frame: bail out unless `gameRunning`; otherwise advance `time` and, unless
`paused`, run `update()` (drawing has no simulation effect). -/
def tick (env : Env) (s : GameState) : GameState :=
  if !s.gameRunning then s
  else
    let s1 := { s with time := s.time + 1 }
    if s1.paused then s1 else update env s1

end DarkHorizon

namespace SpaceGame

/-- Space-voyager `createBullet()` (`script.js` 294-302):
`x = player.x + player.width/2 − 2`, width 4, height 15. -/
def createBullet (s : GameState) : Entity :=
  { x := s.player.x + s.player.width / 2 - 2, y := s.player.y,
    width := 4, height := 15, speed := s.bulletSpeed }

/-- Space-voyager `shoot()` (`script.js` 287-292): only the wall-clock
cooldown gates it — there is no `gameRunning`/pause guard. -/
def shoot (now : ℚ) (s : GameState) : GameState :=
  if now - s.lastShot < s.shotCooldown then s
  else { s with bullets := s.bullets ++ [createBullet s], lastShot := now }

/-- Space-voyager `startGame()` (`script.js` 227-242): score 0,
`gameRunning = true`, the six collections (engine trail included) emptied;
`lastShot` is left untouched. -/
def startGame (s : GameState) : GameState :=
  { s with score := 0, gameRunning := true, bullets := [], asteroids := [],
           stars := [], explosions := [], particles := [], engineTrail := [] }

/-- Space-voyager `updateHighScore()` (`script.js` 469-475) with the
persistence call injected: there is no try/catch, so a throwing
`localStorage.setItem` propagates. The Boolean of the result records
whether control completed normally (`false` = an exception escaped after
the in-memory mutations were already applied). -/
def updateHighScore (setItem : ℕ → Except Unit Unit) (s : GameState) :
    GameState × Bool :=
  if s.highScore < s.score then
    let s1 := { s with highScore := s.score }
    match setItem s1.highScore with
    | Except.ok _ => (s1, true)
    | Except.error _ => (s1, false)
  else (s, true)

/-- Space-voyager `gameOver()` (`script.js` 459-463):
`gameRunning = false` first, then `updateHighScore()`, then
`showGameOver()` — which is reached only when `updateHighScore` did not
throw, hence only when the Boolean is `true`. -/
def gameOver (setItem : ℕ → Except Unit Unit) (s : GameState) :
    GameState × Bool :=
  updateHighScore setItem { s with gameRunning := false }

/-- Space-voyager `createAsteroid()` (`script.js` 353-361):
`x = U·(width − 40)`, `y = −40`, size `30 + U·20`, speed
`asteroidSpeed + U·2`. -/
def createAsteroid (env : Env) (s : GameState) : Entity :=
  { x := env.astX * (s.view.width - 40), y := -40,
    width := 30 + env.astW * 20, height := 30 + env.astH * 20,
    speed := s.asteroidSpeed + env.astSpd * 2 }

/-- Space-voyager `createStar()` (`script.js` 363-371): `x = U·(width − 20)`,
`y = −20`, size `15 + U·10`, speed `starSpeed + U`. -/
def createStar (env : Env) (s : GameState) : Entity :=
  { x := env.starX * (s.view.width - 20), y := -20,
    width := 15 + env.starW * 10, height := 15 + env.starH * 10,
    speed := s.starSpeed + env.starSpd }

/-- Space-voyager `spawnObjects()` (`script.js` 348-351): same 0.02/0.01
spawn probabilities as dark-horizon with its own factories. -/
def spawnObjects (env : Env) (s : GameState) : GameState :=
  let s1 := if env.asteroidRoll < 2 / 100 then
    { s with asteroids := s.asteroids ++ [createAsteroid env s] } else s
  if env.starRoll < 1 / 100 then
    { s1 with stars := s1.stars ++ [createStar env s1] } else s1

/-- Space-voyager `updateEngineTrail()` (`script.js` 787-809): same push
and purge as dark-horizon. -/
def updateEngineTrailS (env : Env) (s : GameState) : GameState :=
  let trail := if s.gameRunning then
    s.engineTrail ++
      [{ x := s.player.x + s.player.width / 2 + (env.trailJitter - 1 / 2) * 4,
         y := s.player.y + s.player.height,
         life := 20, size := env.trailSize * 3 + 1 }]
    else s.engineTrail
  { s with engineTrail := updateTrail trail }

/-- Space-voyager `update()` (`script.js` 253-263): `updatePlayer()` runs
first, then the entity/effect updates, `spawnObjects`, and finally
`checkCollisions` — so collisions see the player's post-movement
position. -/
def update (env : Env) (s : GameState) : GameState :=
  let s1 := { s with player := Player.update s.keys s.mousePos s.view s.player }
  let s2 := { s1 with bullets := updateBullets s1.bullets }
  let s3 := { s2 with asteroids := updateAsteroids s2.view.height s2.asteroids }
  let s4 := { s3 with stars := updateStars s3.view.height s3.stars }
  let s5 := { s4 with explosions := updateExplosions s4.explosions }
  let s6 := { s5 with particles := updateParticles s5.particles }
  let s7 := updateEngineTrailS env s6
  let s8 := spawnObjects env s7
  checkCollisions env.explRands env.burstRands env.cosv env.sinv s8

/-- Space-voyager `gameLoop()` body (`script.js` 244-251): bail out unless
`gameRunning`, else `time++` and `update()`. -/
def tick (env : Env) (s : GameState) : GameState :=
  if !s.gameRunning then s
  else update env { s with time := s.time + 1 }

end SpaceGame

/-- Key codes distinguished by the input handlers: the eight movement keys,
`Space`, and anything else. -/
inductive KeyCode where
  | arrowLeft | arrowRight | arrowUp | arrowDown
  | keyA | keyD | keyW | keyS
  | space
  | other
deriving DecidableEq

/-- Membership in `this.movementKeys` (dark-horizon `bindEventHandlers`) /
the `startsWith('Arrow') || [KeyA, KeyD, KeyW, KeyS].includes` test of
space-voyager `handleKeyDown` — the same eight codes. -/
def isMovementKey : KeyCode → Bool
  | KeyCode.arrowLeft | KeyCode.arrowRight | KeyCode.arrowUp
  | KeyCode.arrowDown | KeyCode.keyA | KeyCode.keyD
  | KeyCode.keyW | KeyCode.keyS => true
  | _ => false

/-- `this.keys[e.code] = true` restricted to the codes the simulation
reads. -/
def setKey (k : Keys) : KeyCode → Keys
  | KeyCode.arrowLeft => { k with arrowLeft := true }
  | KeyCode.arrowRight => { k with arrowRight := true }
  | KeyCode.arrowUp => { k with arrowUp := true }
  | KeyCode.arrowDown => { k with arrowDown := true }
  | KeyCode.keyA => { k with keyA := true }
  | KeyCode.keyD => { k with keyD := true }
  | KeyCode.keyW => { k with keyW := true }
  | KeyCode.keyS => { k with keyS := true }
  | _ => k

/-- Input-snapshot effect of `handleKeyDown(e)` (dark-horizon 149-160,
space-voyager 150-161): ignored while a button holds focus; otherwise the
key is recorded, and a movement key resets the stored pointer to `(0, 0)`.
(The `Space` branch additionally calls `shoot()`, modelled separately.) -/
def handleKeyDown (buttonFocused : Bool) (code : KeyCode)
    (keys : Keys) (mousePos : Vec2) : Keys × Vec2 :=
  if buttonFocused then (keys, mousePos)
  else
    let keys1 := setKey keys code
    if isMovementKey code then (keys1, ⟨0, 0⟩) else (keys1, mousePos)

/-! Helper lemmas about the backward purge loop. -/

theorem getElem?_append_cons {α : Type} (l0 : List α) (e : α) (l2 : List α) :
    (l0 ++ e :: l2)[l0.length]? = some e := by
  induction l0 with
  | nil => simp
  | cons a t ih => simpa using ih

theorem set_append_cons {α : Type} (l0 : List α) (e e' : α) (l2 : List α) :
    (l0 ++ e :: l2).set l0.length e' = l0 ++ e' :: l2 := by
  induction l0 with
  | nil => rfl
  | cons a t ih => simp [List.set, ih]

theorem eraseIdx_append_cons {α : Type} (l0 : List α) (e : α) (l2 : List α) :
    (l0 ++ e :: l2).eraseIdx l0.length = l0 ++ l2 := by
  induction l0 with
  | nil => rfl
  | cons a t ih => simp [List.eraseIdx, ih]

/-- Running the backward purge loop over the prefix `l1` of `l1 ++ l2`
touches each element of `l1` exactly once: the result is the moved,
filtered prefix followed by the untouched suffix. -/
theorem purgeLoop_append {α : Type} (move : α → α) (cond : α → Bool)
    (l1 l2 : List α) :
    purgeLoop move cond l1.length (l1 ++ l2) =
      ((l1.map move).filter fun e => !cond e) ++ l2 := by
  induction l1 using List.reverseRecOn generalizing l2 with
  | nil => simp [purgeLoop]
  | append_singleton l0 e ih =>
    have h1 : (l0 ++ [e]).length = l0.length + 1 := by simp
    have h2 : l0 ++ [e] ++ l2 = l0 ++ e :: l2 := by simp
    rw [h1, h2, purgeLoop, getElem?_append_cons]
    simp only [set_append_cons]
    by_cases hc : cond (move e)
    · rw [if_pos hc, eraseIdx_append_cons, ih]
      simp [hc]
    · rw [if_neg hc, ih]
      simp [hc]

/-- The backward splice loop is extensionally a map followed by a filter:
no element is skipped or processed twice. -/
theorem purgeLoop_eq_mapFilter {α : Type} (move : α → α) (cond : α → Bool)
    (l : List α) :
    purgeLoop move cond l.length l = (l.map move).filter fun e => !cond e := by
  simpa using purgeLoop_append move cond l []

theorem updateAsteroids_eq (viewHeight : ℚ) (l : List Entity) :
    updateAsteroids viewHeight l =
      (l.map moveAsteroid).filter fun a => !decide (a.y > viewHeight) :=
  purgeLoop_eq_mapFilter ..

theorem updateStars_eq (viewHeight : ℚ) (l : List Entity) :
    updateStars viewHeight l =
      (l.map moveStar).filter fun s => !decide (s.y > viewHeight) :=
  purgeLoop_eq_mapFilter ..

theorem updateBullets_eq (l : List Entity) :
    updateBullets l =
      (l.map moveBullet).filter fun b => !decide (b.y + b.height < 0) :=
  purgeLoop_eq_mapFilter ..

theorem updateTrail_eq (l : List TrailParticle) :
    updateTrail l =
      (l.map moveTrailParticle).filter fun p => !decide (p.life ≤ 0) :=
  purgeLoop_eq_mapFilter ..

theorem updateExplosions_eq (l : List Explosion) :
    updateExplosions l =
      (l.map moveExplosion).filter fun e => !decide (e.life ≤ 0) :=
  purgeLoop_eq_mapFilter ..

theorem updateParticles_eq (l : List Particle) :
    updateParticles l =
      (l.map moveParticle).filter fun p => !decide (p.life ≤ 0) :=
  purgeLoop_eq_mapFilter ..

/-! Helper lemmas about the bullet-asteroid inner scan. -/

theorem innerScan_eq_none_iff (b : Entity) (l : List Entity) :
    innerScan b l = none ↔ ∀ a ∈ l, checkCollision b a = false := by
  induction l with
  | nil => simp [innerScan]
  | cons a t ih =>
    cases h : innerScan b t with
    | some p =>
      simp only [innerScan, h]
      constructor
      · intro h'
        exact absurd h' (by simp)
      · intro h'
        have : innerScan b t = none := ih.mpr fun x hx => h' x (by simp [hx])
        rw [this] at h
        exact absurd h (by simp)
    | none =>
      by_cases hc : checkCollision b a
      · simp [innerScan, h, hc]
      · simp only [innerScan, h]
        rw [if_neg (by simpa using hc)]
        refine ⟨fun _ x hx => ?_, fun _ => rfl⟩
        rcases List.mem_cons.mp hx with rfl | hx'
        · simpa using hc
        · exact ih.mp h x hx'

theorem innerScan_eq_some (b : Entity) (l : List Entity) (hit : Entity)
    (rest : List Entity) (h : innerScan b l = some (hit, rest)) :
    checkCollision b hit = true ∧
      ∃ l1 l2, l = l1 ++ hit :: l2 ∧ rest = l1 ++ l2 ∧
        ∀ a ∈ l2, checkCollision b a = false := by
  induction l generalizing hit rest with
  | nil => simp [innerScan] at h
  | cons a t ih =>
    cases h' : innerScan b t with
    | some p =>
      obtain ⟨hp, rp⟩ := p
      simp only [innerScan, h'] at h
      have hpair := Option.some.inj h
      have h3 : hp = hit := congrArg Prod.fst hpair
      have h4 : a :: rp = rest := congrArg Prod.snd hpair
      subst h3
      subst h4
      obtain ⟨hc, l1, l2, hl, hr, hnone⟩ := ih hp rp h'
      exact ⟨hc, a :: l1, l2, by simp [hl], by simp [hr], hnone⟩
    | none =>
      simp only [innerScan, h'] at h
      by_cases hc : checkCollision b a
      · rw [if_pos hc] at h
        have hpair := Option.some.inj h
        have h3 : a = hit := congrArg Prod.fst hpair
        have h4 : t = rest := congrArg Prod.snd hpair
        subst h3
        subst h4
        exact ⟨hc, [], t, rfl, rfl, (innerScan_eq_none_iff b t).mp h'⟩
      · rw [if_neg (by simpa using hc)] at h
        exact absurd h (by simp)

/-! Helper lemmas about game-over bookkeeping. -/

theorem updateHighScoreMem_gameRunning (s : GameState) :
    (updateHighScoreMem s).gameRunning = s.gameRunning := by
  unfold updateHighScoreMem
  split <;> rfl

theorem updateHighScoreMem_score (s : GameState) :
    (updateHighScoreMem s).score = s.score := by
  unfold updateHighScoreMem
  split <;> rfl

theorem updateHighScoreMem_stars (s : GameState) :
    (updateHighScoreMem s).stars = s.stars := by
  unfold updateHighScoreMem
  split <;> rfl

theorem gameOverMem_gameRunning (s : GameState) :
    (gameOverMem s).gameRunning = false := by
  unfold gameOverMem
  rw [updateHighScoreMem_gameRunning]

theorem gameOverMem_score (s : GameState) :
    (gameOverMem s).score = s.score := by
  unfold gameOverMem
  rw [updateHighScoreMem_score]

theorem gameOverMem_stars (s : GameState) :
    (gameOverMem s).stars = s.stars := by
  unfold gameOverMem
  rw [updateHighScoreMem_stars]

/-- Bounds of the `clamp` helper when the interval is nonempty. -/
theorem clamp_bounds (n lo hi : ℚ) (h : lo ≤ hi) :
    lo ≤ clamp n lo hi ∧ clamp n lo hi ≤ hi :=
  ⟨le_max_left _ _, max_le h (min_le_left _ _)⟩

/-- All-false key snapshot (no movement key held). -/
def noKeys : Keys := ⟨false, false, false, false, false, false, false, false⟩

/-- C3: for every pair of rectangles, `checkCollision` returns true iff the
four strict inequalities `a.x < b.x + b.w`, `a.x + a.w > b.x`,
`a.y < b.y + b.h`, `a.y + a.h > b.y` hold; for rectangles of positive size
that is exactly strictly-positive overlap on both axes, and rectangles that
merely touch on an edge (`a.x + a.width = b.x`) do not collide. -/
theorem checkCollision_strict_overlap_spec (a b : Entity) :
    (checkCollision a b = true ↔
      (a.x < b.x + b.width ∧ a.x + a.width > b.x ∧
       a.y < b.y + b.height ∧ a.y + a.height > b.y))
    ∧ (0 < a.width → 0 < b.width → 0 < a.height → 0 < b.height →
        (checkCollision a b = true ↔
          (max a.x b.x < min (a.x + a.width) (b.x + b.width) ∧
           max a.y b.y < min (a.y + a.height) (b.y + b.height))))
    ∧ (a.x + a.width = b.x → checkCollision a b = false) := by
  refine ⟨?_, ?_, ?_⟩
  · simp [checkCollision, and_assoc]
  · intro hw1 hw2 hh1 hh2
    simp only [checkCollision, Bool.and_eq_true, decide_eq_true_eq, gt_iff_lt]
    constructor
    · rintro ⟨⟨⟨h1, h2⟩, h3⟩, h4⟩
      simp only [max_lt_iff, lt_min_iff]
      refine ⟨⟨⟨?_, ?_⟩, ?_, ?_⟩, ⟨?_, ?_⟩, ?_, ?_⟩ <;> linarith
    · intro h
      simp only [max_lt_iff, lt_min_iff] at h
      obtain ⟨⟨⟨_, h1⟩, h2, _⟩, ⟨_, h3⟩, h4, _⟩ := h
      refine ⟨⟨⟨?_, ?_⟩, ?_⟩, ?_⟩ <;> linarith
  · intro he
    have h2 : decide (a.x + a.width > b.x) = false := by
      simp [he]
    simp [checkCollision, h2]

/-- C3 witness: a concrete overlapping pair satisfies the positive-size
characterization, and a concrete edge-touching pair does not collide. -/
theorem checkCollision_strict_overlap_spec_witness :
    (checkCollision ⟨0, 0, 2, 2, 1⟩ ⟨1, 1, 2, 2, 1⟩ = true ↔
      (max (0 : ℚ) 1 < min ((0 : ℚ) + 2) (1 + 2) ∧
       max (0 : ℚ) 1 < min ((0 : ℚ) + 2) (1 + 2)))
    ∧ checkCollision ⟨0, 0, 2, 2, 1⟩ ⟨2, 5, 2, 2, 1⟩ = false :=
  ⟨(checkCollision_strict_overlap_spec ⟨0, 0, 2, 2, 1⟩ ⟨1, 1, 2, 2, 1⟩).2.1
      (by norm_num) (by norm_num) (by norm_num) (by norm_num),
   (checkCollision_strict_overlap_spec ⟨0, 0, 2, 2, 1⟩ ⟨2, 5, 2, 2, 1⟩).2.2
      (by norm_num)⟩

/-- C4: whenever the player fits in the viewport, its position after
`Player.update` lies in `[0, viewport − size]` on both axes, for every key
snapshot, pointer position and starting position. -/
theorem player_update_stays_within_viewport (input : Keys) (mousePos : Vec2)
    (view : Viewport) (p : Entity)
    (hw : p.width ≤ view.width) (hh : p.height ≤ view.height) :
    0 ≤ (Player.update input mousePos view p).x ∧
      (Player.update input mousePos view p).x ≤ view.width - p.width ∧
      0 ≤ (Player.update input mousePos view p).y ∧
      (Player.update input mousePos view p).y ≤ view.height - p.height := by
  unfold Player.update
  dsimp only
  exact ⟨(clamp_bounds _ 0 _ (by linarith)).1,
    (clamp_bounds _ 0 _ (by linarith)).2,
    (clamp_bounds _ 0 _ (by linarith)).1,
    (clamp_bounds _ 0 _ (by linarith)).2⟩

/-- C4 witness: the invariant at a concrete state (pointer far outside the
viewport, up-left keys held, player at the origin). -/
theorem player_update_stays_within_viewport_witness :
    0 ≤ (Player.update ⟨true, false, false, false, true, false, false, false⟩
        ⟨-50, 9999⟩ ⟨800, 600⟩ ⟨0, 0, 25, 25, 8⟩).x ∧
      (Player.update ⟨true, false, false, false, true, false, false, false⟩
        ⟨-50, 9999⟩ ⟨800, 600⟩ ⟨0, 0, 25, 25, 8⟩).x ≤ 800 - 25 ∧
      0 ≤ (Player.update ⟨true, false, false, false, true, false, false, false⟩
        ⟨-50, 9999⟩ ⟨800, 600⟩ ⟨0, 0, 25, 25, 8⟩).y ∧
      (Player.update ⟨true, false, false, false, true, false, false, false⟩
        ⟨-50, 9999⟩ ⟨800, 600⟩ ⟨0, 0, 25, 25, 8⟩).y ≤ 600 - 25 :=
  player_update_stays_within_viewport _ _ _ _ (by norm_num) (by norm_num)

/-- C5: each despawn pass equals moving every entity and keeping exactly
those whose post-movement position is still inside the relevant bound
(asteroid/star kept iff `y ≤ viewportHeight`, bullet kept iff
`y + height ≥ 0`) — the backward splice never skips or double-processes an
entry — and at the boundary an asteroid resting at `viewportHeight + 1` is
removed while one at `viewportHeight` is kept. -/
theorem despawn_purge_exact (viewHeight : ℚ) (asteroids stars bullets : List Entity) :
    updateAsteroids viewHeight asteroids =
      (asteroids.map moveAsteroid).filter (fun a => decide (a.y ≤ viewHeight))
    ∧ updateStars viewHeight stars =
      (stars.map moveStar).filter (fun s => decide (s.y ≤ viewHeight))
    ∧ updateBullets bullets =
      (bullets.map moveBullet).filter (fun b => decide (0 ≤ b.y + b.height))
    ∧ (∀ a : Entity, a.speed = 0 → a.y = viewHeight + 1 →
        updateAsteroids viewHeight [a] = [])
    ∧ (∀ a : Entity, a.speed = 0 → a.y = viewHeight →
        updateAsteroids viewHeight [a] = [a]) := by
  have hfa : (fun (a : Entity) => !decide (a.y > viewHeight))
      = fun a => decide (a.y ≤ viewHeight) := by
    funext a
    rw [← decide_not, decide_eq_decide]
    exact not_lt
  have hfb : (fun (b : Entity) => !decide (b.y + b.height < 0))
      = fun b => decide (0 ≤ b.y + b.height) := by
    funext b
    rw [← decide_not, decide_eq_decide]
    exact not_lt
  refine ⟨?_, ?_, ?_, ?_, ?_⟩
  · rw [updateAsteroids_eq, hfa]
  · rw [updateStars_eq, hfa]
  · rw [updateBullets_eq, hfb]
  · intro a hs hy
    rw [updateAsteroids_eq]
    have hmv : moveAsteroid a = { a with y := viewHeight + 1 } := by
      simp [moveAsteroid, hs, hy]
    rw [List.map_cons, List.map_nil, hmv, List.filter_cons]
    have : ¬(viewHeight + 1 > viewHeight) = False := by simp
    simp only [List.filter_nil]
    rw [if_neg (by simp)]
  · intro a hs hy
    rw [updateAsteroids_eq]
    have hmv : moveAsteroid a = a := by
      cases a
      simp_all [moveAsteroid]
    rw [List.map_cons, List.map_nil, hmv, List.filter_cons]
    rw [if_pos (by simp [hy]), List.filter_nil]

/-- C5 witness: the boundary instances at `viewportHeight = 600`. -/
theorem despawn_purge_exact_witness :
    updateAsteroids 600 [⟨0, 601, 30, 30, 0⟩] = []
    ∧ updateAsteroids 600 [⟨0, 600, 30, 30, 0⟩] = [⟨0, 600, 30, 30, 0⟩] :=
  ⟨(despawn_purge_exact 600 [] [] []).2.2.2.1 ⟨0, 601, 30, 30, 0⟩ rfl (by norm_num),
   (despawn_purge_exact 600 [] [] []).2.2.2.2 ⟨0, 600, 30, 30, 0⟩ rfl rfl⟩

/-- C10: with no movement key held and a pointer sentinel coordinate
(`x ≤ 0` or `y ≤ 0`), `Player.update` only clamps the position; and a
movement-key `keydown` (with no button focused) resets the stored pointer
to `(0, 0)`, which is exactly such a sentinel. -/
theorem pointer_sentinel_and_key_reset (input : Keys) (mousePos : Vec2)
    (view : Viewport) (p : Entity) :
    (input.anyMovement = false → mousePos.x ≤ 0 ∨ mousePos.y ≤ 0 →
      Player.update input mousePos view p =
        { p with x := clamp p.x 0 (view.width - p.width),
                 y := clamp p.y 0 (view.height - p.height) })
    ∧ (∀ (keys : Keys) (mp : Vec2) (code : KeyCode), isMovementKey code = true →
        (handleKeyDown false code keys mp).2 = ⟨0, 0⟩)
    ∧ ((0 : ℚ) ≤ 0) := by
  refine ⟨?_, ?_, le_refl 0⟩
  · intro hk hm
    have hc : (decide (mousePos.x > 0) && decide (mousePos.y > 0)) = false := by
      rcases hm with h | h
      · simp [not_lt.mpr h]
      · simp [not_lt.mpr h]
    unfold Player.update
    rw [if_neg (by simp [hk]), if_neg (by simp [hc])]
  · intro keys mp code hcode
    simp [handleKeyDown, hcode]

/-- C10 witness: a pointer with `x = 0` leaves a concrete player in place
(up to clamping), and an `ArrowLeft` keydown zeroes a concrete pointer. -/
theorem pointer_sentinel_and_key_reset_witness :
    Player.update noKeys ⟨0, 300⟩ ⟨800, 600⟩ ⟨100, 100, 25, 25, 8⟩ =
      { x := clamp 100 0 (800 - 25), y := clamp 100 0 (600 - 25),
        width := 25, height := 25, speed := 8 }
    ∧ (handleKeyDown false KeyCode.arrowLeft noKeys ⟨250, 300⟩).2 = ⟨0, 0⟩ :=
  ⟨(pointer_sentinel_and_key_reset noKeys ⟨0, 300⟩ ⟨800, 600⟩
      ⟨100, 100, 25, 25, 8⟩).1 rfl (Or.inl (by norm_num)),
   (pointer_sentinel_and_key_reset noKeys ⟨0, 300⟩ ⟨800, 600⟩
      ⟨100, 100, 25, 25, 8⟩).2.1 noKeys ⟨250, 300⟩ KeyCode.arrowLeft rfl⟩

/-- C2: in the bullet×asteroid phase, a bullet whose scan finds no
intersecting asteroid survives with nothing else changed, while a bullet
whose backward scan finds an intersecting asteroid removes exactly that
asteroid (the first match of the scan — every asteroid after it in scan
order misses), removes the bullet itself, adds exactly the configured
asteroid value to the score, and appends exactly one explosion whose
center is the asteroid's center. -/
theorem bullet_destroys_at_most_one_asteroid
    (astScore : ℕ) (rands : ℕ → ℕ → ℚ) (bullet : Entity)
    (rest asteroids : List Entity) (score : ℕ)
    (explosions : List Explosion) (particles : List Particle)
    (r : BulletPhase)
    (hr : r = bulletAsteroidLoop astScore (fun n => rands (n + 1)) rest
      asteroids score explosions particles) :
    (innerScan bullet r.asteroids = none ↔
      ∀ a ∈ r.asteroids, checkCollision bullet a = false)
    ∧ (innerScan bullet r.asteroids = none →
        bulletAsteroidLoop astScore rands (bullet :: rest) asteroids score
          explosions particles = { r with bullets := bullet :: r.bullets })
    ∧ (∀ hit asteroids1,
        innerScan bullet r.asteroids = some (hit, asteroids1) →
        checkCollision bullet hit = true
        ∧ (∃ l1 l2, r.asteroids = l1 ++ hit :: l2 ∧ asteroids1 = l1 ++ l2
            ∧ ∀ a ∈ l2, checkCollision bullet a = false)
        ∧ bulletAsteroidLoop astScore rands (bullet :: rest) asteroids score
            explosions particles =
          { bullets := r.bullets, asteroids := asteroids1,
            score := r.score + astScore,
            explosions := r.explosions ++
              [mkExplosion (hit.x + hit.width / 2) (hit.y + hit.height / 2)],
            particles := r.particles ++
              createExplosionParticles (rands 0) (hit.x + hit.width / 2)
                (hit.y + hit.height / 2) }
        ∧ (mkExplosion (hit.x + hit.width / 2) (hit.y + hit.height / 2)).x
            + (mkExplosion (hit.x + hit.width / 2) (hit.y + hit.height / 2)).width / 2
            = hit.x + hit.width / 2
        ∧ (mkExplosion (hit.x + hit.width / 2) (hit.y + hit.height / 2)).y
            + (mkExplosion (hit.x + hit.width / 2) (hit.y + hit.height / 2)).height / 2
            = hit.y + hit.height / 2) := by
  subst hr
  refine ⟨innerScan_eq_none_iff _ _, ?_, ?_⟩
  · intro h
    simp only [bulletAsteroidLoop]
    rw [h]
  · intro hit asteroids1 h
    obtain ⟨hc, hdec⟩ := innerScan_eq_some _ _ _ _ h
    refine ⟨hc, hdec, ?_, ?_, ?_⟩
    · simp only [bulletAsteroidLoop]
      rw [h]
    · simp only [mkExplosion]
      ring
    · simp only [mkExplosion]
      ring

/-- C2 witness: one bullet over one asteroid fires exactly one collision,
removing both, scoring the asteroid value, and emitting one centered
explosion. -/
theorem bullet_destroys_at_most_one_asteroid_witness :
    checkCollision ⟨13, 0, 4, 15, 8⟩ ⟨0, 0, 30, 30, 1⟩ = true
    ∧ bulletAsteroidLoop 10 (fun _ _ => 0) [⟨13, 0, 4, 15, 8⟩]
        [⟨0, 0, 30, 30, 1⟩] 0 [] []
      = { bullets := [], asteroids := [], score := 0 + 10,
          explosions := [mkExplosion ((0 : ℚ) + 30 / 2) ((0 : ℚ) + 30 / 2)],
          particles := createExplosionParticles (fun _ => 0)
            ((0 : ℚ) + 30 / 2) ((0 : ℚ) + 30 / 2) } := by
  have h := (bullet_destroys_at_most_one_asteroid 10 (fun _ _ => 0)
    ⟨13, 0, 4, 15, 8⟩ [] [⟨0, 0, 30, 30, 1⟩] 0 [] []
    ⟨[], [⟨0, 0, 30, 30, 1⟩], 0, [], []⟩ rfl).2.2 ⟨0, 0, 30, 30, 1⟩ []
    (by norm_num [innerScan, checkCollision])
  exact ⟨h.1, h.2.2.1⟩

/-- Neutral session state used to build concrete test states: idle session
with desktop configuration on an 800×600 viewport. -/
def baseState : GameState :=
  { score := 0, highScore := 0, gameRunning := false, paused := false,
    keys := noKeys, mousePos := ⟨0, 0⟩, view := ⟨800, 600⟩,
    player := ⟨100, 500, 25, 25, 8⟩, bullets := [], asteroids := [],
    stars := [], explosions := [], particles := [], engineTrail := [],
    lastShot := 0, time := 0, asteroidSpeed := 12 / 10, bulletSpeed := 8,
    starSpeed := 1, shotCooldown := 200 }

/-- Tick environment whose spawn rolls suppress both spawns and whose
random/trig streams are constant. -/
def envNeutral : Env :=
  { asteroidRoll := 1 / 2, starRoll := 1 / 2, astW := 0, astH := 0,
    astSpd := 0, astX := 0, starW := 0, starH := 0, starSpd := 0,
    starX := 0, trailJitter := 1 / 2, trailSize := 0,
    explRands := fun _ _ => 0, burstRands := fun _ _ => 0,
    cosv := fun _ => 1, sinv := fun _ => 0 }

/-- C1: on a tick whose player×asteroid scan finds any live asteroid
intersecting the player (after the bullet phase), `checkCollisions` ends
the session (`gameRunning = false`), leaves the score exactly as the
bullet phase left it (no star pickup registers, even for stars the player
overlaps), and removes no star; and while the session is not running, the
frame loop leaves the state — score included — unchanged on every
subsequent tick, in both variants. -/
theorem player_asteroid_hit_ends_tick_without_star_pickup
    (explRands burstRands : ℕ → ℕ → ℚ) (cosv sinv : ℕ → ℚ) (s : GameState)
    (bp : BulletPhase)
    (hbp : bp = bulletAsteroidLoop ASTEROID_SCORE explRands s.bullets
      s.asteroids s.score s.explosions s.particles)
    (hhit : bp.asteroids.any (fun a => checkCollision s.player a) = true) :
    (checkCollisions explRands burstRands cosv sinv s).gameRunning = false
    ∧ (checkCollisions explRands burstRands cosv sinv s).score = bp.score
    ∧ (checkCollisions explRands burstRands cosv sinv s).stars = s.stars
    ∧ (∀ (env : Env) (s' : GameState), s'.gameRunning = false →
        DarkHorizon.tick env s' = s' ∧ SpaceGame.tick env s' = s')
    ∧ (∀ (env : Env) (s' : GameState) (n : ℕ), s'.gameRunning = false →
        (DarkHorizon.tick env)^[n] s' = s' ∧ (SpaceGame.tick env)^[n] s' = s') := by
  subst hbp
  unfold checkCollisions
  dsimp only
  rw [if_pos hhit]
  refine ⟨gameOverMem_gameRunning _, ?_, ?_, ?_, ?_⟩
  · rw [gameOverMem_score]
  · rw [gameOverMem_stars]
  · intro env s' h
    constructor
    · simp [DarkHorizon.tick, h]
    · simp [SpaceGame.tick, h]
  · intro env s' n h
    constructor
    · induction n with
      | zero => rfl
      | succ m ih =>
        rw [Function.iterate_succ_apply,
          show DarkHorizon.tick env s' = s' from by simp [DarkHorizon.tick, h]]
        exact ih
    · induction n with
      | zero => rfl
      | succ m ih =>
        rw [Function.iterate_succ_apply,
          show SpaceGame.tick env s' = s' from by simp [SpaceGame.tick, h]]
        exact ih

/-- C1 witness: a player overlapping both an asteroid and a star at
collision time ends the game with the score unchanged and the star still
in its collection, and the stopped session is frozen on the next tick. -/
theorem player_asteroid_hit_ends_tick_without_star_pickup_witness :
    (checkCollisions (fun _ _ => 0) (fun _ _ => 0) (fun _ => 1) (fun _ => 0)
      { baseState with gameRunning := true, player := ⟨0, 0, 25, 25, 8⟩,
                       asteroids := [⟨0, 0, 30, 30, 1⟩],
                       stars := [⟨0, 0, 15, 15, 1⟩] }).gameRunning = false
    ∧ (checkCollisions (fun _ _ => 0) (fun _ _ => 0) (fun _ => 1) (fun _ => 0)
      { baseState with gameRunning := true, player := ⟨0, 0, 25, 25, 8⟩,
                       asteroids := [⟨0, 0, 30, 30, 1⟩],
                       stars := [⟨0, 0, 15, 15, 1⟩] }).score = 0
    ∧ (checkCollisions (fun _ _ => 0) (fun _ _ => 0) (fun _ => 1) (fun _ => 0)
      { baseState with gameRunning := true, player := ⟨0, 0, 25, 25, 8⟩,
                       asteroids := [⟨0, 0, 30, 30, 1⟩],
                       stars := [⟨0, 0, 15, 15, 1⟩] }).stars = [⟨0, 0, 15, 15, 1⟩]
    ∧ DarkHorizon.tick envNeutral baseState = baseState
    ∧ SpaceGame.tick envNeutral baseState = baseState := by
  have h := player_asteroid_hit_ends_tick_without_star_pickup
    (fun _ _ => 0) (fun _ _ => 0) (fun _ => 1) (fun _ => 0)
    { baseState with gameRunning := true, player := ⟨0, 0, 25, 25, 8⟩,
                     asteroids := [⟨0, 0, 30, 30, 1⟩],
                     stars := [⟨0, 0, 15, 15, 1⟩] }
    ⟨[], [⟨0, 0, 30, 30, 1⟩], 0, [], []⟩ rfl
    (by norm_num [checkCollision])
  exact ⟨h.1, h.2.1, h.2.2.1, (h.2.2.2.1 envNeutral baseState rfl).1,
    (h.2.2.2.1 envNeutral baseState rfl).2⟩

/-- C6 counterexample: the space-voyager `shoot()` has no
`gameRunning`/pause guard, so a session that is not running still gains a
bullet once the cooldown allows — the claim that a bullet is created
"only while Running and not Paused" fails on that variant. -/
theorem shoot_requires_running_counterexample :
    baseState.gameRunning = false
    ∧ (SpaceGame.shoot 1000 baseState).bullets.length
        = baseState.bullets.length + 1 := by
  refine ⟨rfl, ?_⟩
  norm_num [SpaceGame.shoot, baseState]

/-- C6 amended: the dark-horizon `shoot()` refuses to fire unless the
session is Running and not Paused, while the space-voyager `shoot()`
enforces only the cooldown (it can create a bullet with the session
stopped); in both variants, after a successful shot at `t1`, a second call
less than `shotCooldownMs` later adds no bullet and a second call at least
`shotCooldownMs` later adds one. -/
theorem shoot_guard_and_cooldown_amended (s : GameState) (t1 t2 : ℚ) :
    ((s.gameRunning = false ∨ s.paused = true) → DarkHorizon.shoot t1 s = s)
    ∧ (s.shotCooldown ≤ t1 - s.lastShot →
        ((t2 - t1 < s.shotCooldown →
            (SpaceGame.shoot t2 (SpaceGame.shoot t1 s)).bullets.length
              = s.bullets.length + 1)
         ∧ (s.shotCooldown ≤ t2 - t1 →
            (SpaceGame.shoot t2 (SpaceGame.shoot t1 s)).bullets.length
              = s.bullets.length + 2)
         ∧ (s.gameRunning = true → s.paused = false →
            ((t2 - t1 < s.shotCooldown →
                (DarkHorizon.shoot t2 (DarkHorizon.shoot t1 s)).bullets.length
                  = s.bullets.length + 1)
             ∧ (s.shotCooldown ≤ t2 - t1 →
                (DarkHorizon.shoot t2 (DarkHorizon.shoot t1 s)).bullets.length
                  = s.bullets.length + 2))))) := by
  constructor
  · rintro (h | h) <;> simp [DarkHorizon.shoot, h]
  · intro h1
    have hn1 : ¬(t1 - s.lastShot < s.shotCooldown) := not_lt.mpr h1
    have hsv1 : SpaceGame.shoot t1 s =
        { s with bullets := s.bullets ++ [SpaceGame.createBullet s],
                 lastShot := t1 } := by
      unfold SpaceGame.shoot
      rw [if_neg hn1]
    refine ⟨?_, ?_, ?_⟩
    · intro h2
      rw [hsv1]
      unfold SpaceGame.shoot
      rw [if_pos h2]
      simp
    · intro h2
      rw [hsv1]
      unfold SpaceGame.shoot
      rw [if_neg (not_lt.mpr h2)]
      simp
    · intro hrun hp
      have hg : (!s.gameRunning || s.paused) = false := by
        simp [hrun, hp]
      have hdh1 : DarkHorizon.shoot t1 s =
          { s with bullets := s.bullets ++ [DarkHorizon.createBullet s],
                   lastShot := t1 } := by
        unfold DarkHorizon.shoot
        rw [if_neg (by simp [hg]), if_neg hn1]
      constructor
      · intro h2
        rw [hdh1]
        unfold DarkHorizon.shoot
        rw [if_neg (by simp [hrun, hp]), if_pos h2]
        simp
      · intro h2
        rw [hdh1]
        unfold DarkHorizon.shoot
        rw [if_neg (by simp [hrun, hp]), if_neg (not_lt.mpr h2)]
        simp

/-- C6 witness: concrete two-call sequences 100 ms and 200 ms apart after a
successful shot at `t = 300`, and the dark-horizon guard on a paused
session. -/
theorem shoot_guard_and_cooldown_amended_witness :
    (SpaceGame.shoot 400 (SpaceGame.shoot 300 { baseState with
        gameRunning := true })).bullets.length
      = ({ baseState with gameRunning := true } : GameState).bullets.length + 1
    ∧ (SpaceGame.shoot 500 (SpaceGame.shoot 300 { baseState with
        gameRunning := true })).bullets.length
      = ({ baseState with gameRunning := true } : GameState).bullets.length + 2
    ∧ DarkHorizon.shoot 300 { baseState with gameRunning := true, paused := true }
      = { baseState with gameRunning := true, paused := true } := by
  refine ⟨?_, ?_, ?_⟩
  · exact ((shoot_guard_and_cooldown_amended { baseState with gameRunning := true }
      300 400).2 (by norm_num [baseState])).1 (by norm_num [baseState])
  · exact (((shoot_guard_and_cooldown_amended { baseState with gameRunning := true }
      300 500).2 (by norm_num [baseState])).2.1 (by norm_num [baseState]))
  · exact (shoot_guard_and_cooldown_amended
      { baseState with gameRunning := true, paused := true } 300 300).1
      (Or.inr rfl)

/-- C7 counterexample: the space-voyager `startGame()` never touches
`lastShot`, and the dark-horizon `resetGameState()` never clears the
engine-trail particles — so "resets the shot cooldown timer" and "empties
every entity and particle collection" both fail as universal statements. -/
theorem start_reset_counterexample :
    (SpaceGame.startGame
        { baseState with lastShot := 12345, engineTrail := [⟨0, 0, 20, 1⟩] }
      ).lastShot = 12345
    ∧ (12345 : ℚ) ≠ 0
    ∧ (DarkHorizon.startGame
        { baseState with lastShot := 12345, engineTrail := [⟨0, 0, 20, 1⟩] }
      ).engineTrail = [⟨0, 0, 20, 1⟩] := by
  exact ⟨rfl, by norm_num, rfl⟩

/-- C7 amended: from any state, `start()` resets the score to 0, sets the
session Running, and empties the bullet, asteroid, star, explosion and
free-particle collections; additionally the dark-horizon variant resets
the shot-cooldown timer but keeps the engine-trail particles, while the
space-voyager variant clears the engine trail but keeps `lastShot`; the
persisted high score survives in both. -/
theorem start_reset_amended (s : GameState) :
    (DarkHorizon.startGame s).score = 0
    ∧ (DarkHorizon.startGame s).gameRunning = true
    ∧ (DarkHorizon.startGame s).asteroids = []
    ∧ (DarkHorizon.startGame s).bullets = []
    ∧ (DarkHorizon.startGame s).stars = []
    ∧ (DarkHorizon.startGame s).explosions = []
    ∧ (DarkHorizon.startGame s).particles = []
    ∧ (DarkHorizon.startGame s).lastShot = 0
    ∧ (DarkHorizon.startGame s).engineTrail = s.engineTrail
    ∧ (DarkHorizon.startGame s).highScore = s.highScore
    ∧ (SpaceGame.startGame s).score = 0
    ∧ (SpaceGame.startGame s).gameRunning = true
    ∧ (SpaceGame.startGame s).asteroids = []
    ∧ (SpaceGame.startGame s).bullets = []
    ∧ (SpaceGame.startGame s).stars = []
    ∧ (SpaceGame.startGame s).explosions = []
    ∧ (SpaceGame.startGame s).particles = []
    ∧ (SpaceGame.startGame s).engineTrail = []
    ∧ (SpaceGame.startGame s).lastShot = s.lastShot
    ∧ (SpaceGame.startGame s).highScore = s.highScore :=
  ⟨rfl, rfl, rfl, rfl, rfl, rfl, rfl, rfl, rfl, rfl,
   rfl, rfl, rfl, rfl, rfl, rfl, rfl, rfl, rfl, rfl⟩

/-- C8: the dark-horizon `gameOver()` wraps `localStorage.setItem` in a
try/catch, so its result is independent of whether the store throws, the
session still stops and the in-memory high score still updates; the
space-voyager `updateHighScore()` has no try/catch, so with a throwing
store its game-over flow is interrupted (the Boolean records that
`showGameOver` is never reached), even though `running = false` and the
in-memory high score were already applied. -/
theorem highscore_persistence_failure_behavior :
    (SpaceGame.gameOver (fun _ => Except.error ())
      { baseState with gameRunning := true, score := 1 }).2 = false
    ∧ (SpaceGame.gameOver (fun _ => Except.error ())
      { baseState with gameRunning := true, score := 1 }).1.gameRunning = false
    ∧ (SpaceGame.gameOver (fun _ => Except.error ())
      { baseState with gameRunning := true, score := 1 }).1.highScore = 1
    ∧ (SpaceGame.gameOver (fun _ => Except.ok ())
      { baseState with gameRunning := true, score := 1 }).2 = true
    ∧ (∀ (setItem : ℕ → Except Unit Unit) (s : GameState),
        DarkHorizon.gameOver setItem s
          = DarkHorizon.gameOver (fun _ => Except.ok ()) s
        ∧ (DarkHorizon.gameOver setItem s).gameRunning = false
        ∧ (s.highScore < s.score →
            (DarkHorizon.gameOver setItem s).highScore = s.score)) := by
  have hm : ∀ (f : ℕ → Except Unit Unit) (x : ℕ) (st : GameState),
      (match f x with
       | Except.ok _ => st
       | Except.error _ => st) = st := by
    intro f x st
    cases f x <;> rfl
  refine ⟨rfl, rfl, rfl, rfl, ?_⟩
  intro setItem s
  refine ⟨?_, ?_, ?_⟩
  · simp only [DarkHorizon.gameOver, DarkHorizon.updateHighScore, hm]
  · unfold DarkHorizon.gameOver DarkHorizon.updateHighScore
    split
    · rw [hm]
    · rfl
  · intro h
    unfold DarkHorizon.gameOver DarkHorizon.updateHighScore
    rw [if_pos h, hm]

/-- Key snapshot holding only `ArrowDown`. -/
def downKeys : Keys := { noKeys with arrowDown := true }

/-- C9 counterexample: in dark-horizon, `update()` moves the player only
after `checkCollisions()`. Starting a tick with the player at `(100, 100)`
holding `ArrowDown` and an asteroid that moves to `(100, 126)`, the
collision scan uses the pre-movement player (no overlap: `125 > 126`
fails) and the tick ends still running — yet the tick's post-movement
player `(100, 108)` does overlap that asteroid, contradicting the claim
that every collision test reads the current tick's post-movement player
position. -/
theorem collision_reads_premove_player_counterexample :
    (DarkHorizon.update envNeutral
      { baseState with gameRunning := true, keys := downKeys,
                       player := ⟨100, 100, 25, 25, 8⟩,
                       asteroids := [⟨100, 125, 30, 30, 1⟩] }).gameRunning = true
    ∧ (DarkHorizon.update envNeutral
      { baseState with gameRunning := true, keys := downKeys,
                       player := ⟨100, 100, 25, 25, 8⟩,
                       asteroids := [⟨100, 125, 30, 30, 1⟩] }).asteroids
      = [⟨100, 126, 30, 30, 1⟩]
    ∧ (DarkHorizon.update envNeutral
      { baseState with gameRunning := true, keys := downKeys,
                       player := ⟨100, 100, 25, 25, 8⟩,
                       asteroids := [⟨100, 125, 30, 30, 1⟩] }).player
      = ⟨100, 108, 25, 25, 8⟩
    ∧ checkCollision ⟨100, 108, 25, 25, 8⟩ ⟨100, 126, 30, 30, 1⟩ = true := by
  refine ⟨?_, ?_, ?_, ?_⟩ <;>
    norm_num [DarkHorizon.update, DarkHorizon.updateEngineTrailS,
      DarkHorizon.spawnObjects, checkCollisions, gameOverMem,
      updateHighScoreMem, updateAsteroids_eq, updateStars_eq,
      updateBullets_eq, updateTrail_eq, updateExplosions_eq,
      updateParticles_eq, moveAsteroid, bulletAsteroidLoop, starLoop,
      Player.update, Keys.anyMovement, clamp, checkCollision, baseState,
      envNeutral, downKeys, noKeys, min_def, max_def, List.filter]

/-- C9 amended: with the bullet list empty and no spawn this tick,
collision resolution reads the post-movement positions of asteroids in
both variants, but the player rectangle it tests is the previous
position in dark-horizon (whose `player.update` runs after
`checkCollisions`) and the current tick's post-movement position in
space-voyager (whose `updatePlayer` runs first): the tick ends the session
exactly when the respective player rectangle hits a moved asteroid. -/
theorem collision_ordering_amended (env : Env) (s : GameState)
    (hrun : s.gameRunning = true) (hb : s.bullets = [])
    (h1 : ¬(env.asteroidRoll < 2 / 100)) (h2 : ¬(env.starRoll < 1 / 100)) :
    ((DarkHorizon.update env s).gameRunning = false ↔
      (updateAsteroids s.view.height s.asteroids).any
        (fun a => checkCollision s.player a) = true)
    ∧ ((SpaceGame.update env s).gameRunning = false ↔
      (updateAsteroids s.view.height s.asteroids).any
        (fun a => checkCollision
          (Player.update s.keys s.mousePos s.view s.player) a) = true) := by
  constructor
  · unfold DarkHorizon.update DarkHorizon.updateEngineTrailS
      DarkHorizon.spawnObjects checkCollisions
    dsimp only
    rw [hb, if_neg h1, if_neg h2]
    simp only [updateBullets, List.length_nil, purgeLoop, bulletAsteroidLoop]
    by_cases hany : (updateAsteroids s.view.height s.asteroids).any
        (fun a => checkCollision s.player a) = true
    · rw [if_pos hany]
      simp [gameOverMem_gameRunning, hany]
    · rw [if_neg hany]
      simp [hany, hrun]
  · unfold SpaceGame.update SpaceGame.updateEngineTrailS
      SpaceGame.spawnObjects checkCollisions
    dsimp only
    rw [hb, if_neg h1, if_neg h2]
    simp only [updateBullets, List.length_nil, purgeLoop, bulletAsteroidLoop]
    by_cases hany : (updateAsteroids s.view.height s.asteroids).any
        (fun a => checkCollision
          (Player.update s.keys s.mousePos s.view s.player) a) = true
    · rw [if_pos hany]
      simp [gameOverMem_gameRunning, hany]
    · rw [if_neg hany]
      simp [hany, hrun]

/-- C9 witness: the amended ordering statement at the concrete tick of the
counterexample state. -/
theorem collision_ordering_amended_witness :
    ((DarkHorizon.update envNeutral
      { baseState with gameRunning := true, keys := downKeys,
                       player := ⟨100, 100, 25, 25, 8⟩,
                       asteroids := [⟨100, 125, 30, 30, 1⟩] }).gameRunning = false ↔
      (updateAsteroids (600 : ℚ) [⟨100, 125, 30, 30, 1⟩]).any
        (fun a => checkCollision ⟨100, 100, 25, 25, 8⟩ a) = true)
    ∧ ((SpaceGame.update envNeutral
      { baseState with gameRunning := true, keys := downKeys,
                       player := ⟨100, 100, 25, 25, 8⟩,
                       asteroids := [⟨100, 125, 30, 30, 1⟩] }).gameRunning = false ↔
      (updateAsteroids (600 : ℚ) [⟨100, 125, 30, 30, 1⟩]).any
        (fun a => checkCollision
          (Player.update downKeys ⟨0, 0⟩ ⟨800, 600⟩ ⟨100, 100, 25, 25, 8⟩) a)
        = true) :=
  collision_ordering_amended envNeutral
    { baseState with gameRunning := true, keys := downKeys,
                     player := ⟨100, 100, 25, 25, 8⟩,
                     asteroids := [⟨100, 125, 30, 30, 1⟩] }
    rfl rfl (by norm_num [envNeutral]) (by norm_num [envNeutral])

end VibeCoding
